import Mathlib

/-!
Verification of the negotiation-assistant chat components
(`src/components/AITextChat.tsx`: the `AITextChat` widget and the
`ConversationImageAnalyzer` widget).  The TypeScript handlers are embedded
as pure Lean functions: the nondeterministic environment (clock value,
outcome of each network request) is passed in explicitly, and each handler
returns the new message log together with the observable effects it emitted
(network calls attempted, toasts raised).
-/

/-- JSON values as produced by the JavaScript `JSON.parse` builtin on the
inputs relevant here.  Numeric literals keep their source lexeme; object
fields are kept in parse order (duplicate keys are resolved last-wins at
lookup time, matching JavaScript object semantics). -/
inductive Json where
  | null
  | bool (b : Bool)
  | num (lexeme : String)
  | str (s : String)
  | arr (elems : List Json)
  | obj (fields : List (String × Json))

/-- JSON insignificant whitespace (RFC 8259 / `JSON.parse`). -/
def jsonWs (c : Char) : Bool :=
  c = ' ' || c = '\t' || c = '\n' || c = '\r'

/-- Drop leading JSON whitespace. -/
def skipWs (s : List Char) : List Char := s.dropWhile jsonWs

/-- Hexadecimal digit value, for `\uXXXX` string escapes. -/
def hexVal (c : Char) : Option Nat :=
  if '0' ≤ c ∧ c ≤ '9' then some (c.toNat - '0'.toNat)
  else if 'a' ≤ c ∧ c ≤ 'f' then some (c.toNat - 'a'.toNat + 10)
  else if 'A' ≤ c ∧ c ≤ 'F' then some (c.toNat - 'A'.toNat + 10)
  else none

/-- Body of a JSON string literal, after the opening quote: scans until the
closing quote, handling the escape sequences `JSON.parse` accepts and
rejecting raw control characters.  `acc` accumulates decoded characters in
reverse. -/
def parseStringBody : Nat → List Char → List Char → Option (String × List Char)
  | 0, _, _ => none
  | _ + 1, _, [] => none
  | fuel + 1, acc, c :: rest =>
    if c = '"' then some (⟨acc.reverse⟩, rest)
    else if c = '\\' then
      match rest with
      | '"' :: r => parseStringBody fuel ('"' :: acc) r
      | '\\' :: r => parseStringBody fuel ('\\' :: acc) r
      | '/' :: r => parseStringBody fuel ('/' :: acc) r
      | 'b' :: r => parseStringBody fuel (Char.ofNat 8 :: acc) r
      | 'f' :: r => parseStringBody fuel (Char.ofNat 12 :: acc) r
      | 'n' :: r => parseStringBody fuel ('\n' :: acc) r
      | 'r' :: r => parseStringBody fuel ('\r' :: acc) r
      | 't' :: r => parseStringBody fuel ('\t' :: acc) r
      | 'u' :: h1 :: h2 :: h3 :: h4 :: r =>
        match hexVal h1, hexVal h2, hexVal h3, hexVal h4 with
        | some a, some b, some c', some d =>
          parseStringBody fuel (Char.ofNat (((a * 16 + b) * 16 + c') * 16 + d) :: acc) r
        | _, _, _, _ => none
      | _ => none
    else if c.toNat < 32 then none
    else parseStringBody fuel (c :: acc) rest

/-- Digit span of a numeric literal: at least one digit. -/
def digitSpan (s : List Char) : Option (List Char × List Char) :=
  match s.span Char.isDigit with
  | ([], _) => none
  | (ds, rest) => some (ds, rest)

/-- JSON numeric literal (`-?int frac? exp?`, leading zeros rejected),
returned as its lexeme. -/
def parseNumber (s : List Char) : Option (String × List Char) :=
  let (sign, s1) :=
    match s with
    | '-' :: r => (['-'], r)
    | _ => (([] : List Char), s)
  match s1 with
  | '0' :: r1 =>
    (parseFracExp r1).map fun (tail, rest) => (⟨sign ++ ['0'] ++ tail⟩, rest)
  | c :: _ =>
    if c.isDigit then
      match digitSpan s1 with
      | some (ds, r1) =>
        (parseFracExp r1).map fun (tail, rest) => (⟨sign ++ ds ++ tail⟩, rest)
      | none => none
    else none
  | [] => none
where
  /-- Optional fraction and exponent parts. -/
  parseFracExp (s : List Char) : Option (List Char × List Char) :=
    let (frac, s2) :=
      match s with
      | '.' :: r =>
        match digitSpan r with
        | some (ds, rest) => (some ('.' :: ds), rest)
        | none => (none, s)
      | _ => (some [], s)
    match frac with
    | none => none
    | some fracCs =>
      match s2 with
      | e :: r =>
        if e = 'e' ∨ e = 'E' then
          let (signCs, r2) :=
            match r with
            | '+' :: r' => (['+'], r')
            | '-' :: r' => (['-'], r')
            | _ => (([] : List Char), r)
          match digitSpan r2 with
          | some (ds, rest) => some (fracCs ++ [e] ++ signCs ++ ds, rest)
          | none => none
        else some (fracCs, s2)
      | [] => some (fracCs, s2)

mutual

/-- One JSON value, leading whitespace allowed; returns the value and the
unconsumed remainder. -/
def parseValue : Nat → List Char → Option (Json × List Char)
  | 0, _ => none
  | fuel + 1, s =>
    match skipWs s with
    | '{' :: rest => parseObjBody fuel rest
    | '[' :: rest => parseArrBody fuel rest
    | '"' :: rest =>
      match parseStringBody (rest.length + 1) [] rest with
      | some (str, r) => some (Json.str str, r)
      | none => none
    | 't' :: 'r' :: 'u' :: 'e' :: rest => some (Json.bool true, rest)
    | 'f' :: 'a' :: 'l' :: 's' :: 'e' :: rest => some (Json.bool false, rest)
    | 'n' :: 'u' :: 'l' :: 'l' :: rest => some (Json.null, rest)
    | c :: rest =>
      if c = '-' ∨ c.isDigit then
        (parseNumber (c :: rest)).map fun (lex, r) => (Json.num lex, r)
      else none
    | [] => none

/-- Object body, after the opening brace has been consumed. -/
def parseObjBody : Nat → List Char → Option (Json × List Char)
  | 0, _ => none
  | fuel + 1, s =>
    match skipWs s with
    | '}' :: rest => some (Json.obj [], rest)
    | _ => parseMembers fuel s []

/-- Comma-separated `"key": value` members of an object, up to the closing
brace. -/
def parseMembers : Nat → List Char → List (String × Json) → Option (Json × List Char)
  | 0, _, _ => none
  | fuel + 1, s, acc =>
    match skipWs s with
    | '"' :: rest =>
      match parseStringBody (rest.length + 1) [] rest with
      | some (key, r1) =>
        match skipWs r1 with
        | ':' :: r2 =>
          match parseValue fuel r2 with
          | some (v, r3) =>
            match skipWs r3 with
            | ',' :: r4 => parseMembers fuel r4 (acc ++ [(key, v)])
            | '}' :: r4 => some (Json.obj (acc ++ [(key, v)]), r4)
            | _ => none
          | none => none
        | _ => none
      | none => none
    | _ => none

/-- Array body, after the opening bracket has been consumed. -/
def parseArrBody : Nat → List Char → Option (Json × List Char)
  | 0, _ => none
  | fuel + 1, s =>
    match skipWs s with
    | ']' :: rest => some (Json.arr [], rest)
    | _ => parseElems fuel s []

/-- Comma-separated elements of an array, up to the closing bracket. -/
def parseElems : Nat → List Char → List Json → Option (Json × List Char)
  | 0, _, _ => none
  | fuel + 1, s, acc =>
    match parseValue fuel s with
    | some (v, r) =>
      match skipWs r with
      | ',' :: r2 => parseElems fuel r2 (acc ++ [v])
      | ']' :: r2 => some (Json.arr (acc ++ [v]), r2)
      | _ => none
    | none => none

end

/-- Model of `JSON.parse` on a character list: one JSON value surrounded by
optional whitespace; anything else throws (returns `none`). -/
def Json.parseL (l : List Char) : Option Json :=
  match parseValue (4 * (l.length + 1)) l with
  | some (j, rest) => if (skipWs rest).isEmpty then some j else none
  | none => none

/-- Model of `JSON.parse` on a string. -/
def Json.parse (s : String) : Option Json := Json.parseL s.data

/-- Leftmost-longest match of the regex `\x7b[\s\S]*\x7d` used at
`analysisText.match(...)` in `analyzeConversation`: the span from the first
opening brace to the last closing brace of the string, provided the closing
brace comes strictly after the opening one; `none` when the regex does not
match. -/
def jsonMatchL (s : List Char) : Option (List Char) :=
  match s.dropWhile (fun c => c != '{') with
  | [] => none
  | t =>
    match (t.reverse.dropWhile (fun c => c != '}')).reverse with
    | [] => none
    | r => some r

/-- JavaScript property read `o[k]` on a parsed JSON value: `none` models
`undefined` (missing property or non-object receiver); duplicate keys
resolve last-wins as in JavaScript objects. -/
def jsGet : Json → String → Option Json
  | Json.obj fields, k => (fields.reverse.find? (fun p => p.1 == k)).map (fun p => p.2)
  | _, _ => none

/-- Property read that is defined only when the property holds a string. -/
def jsGetStr (j : Json) (k : String) : Option String :=
  match jsGet j k with
  | some (Json.str s) => some s
  | _ => none

/-- Model of `String.prototype.toLowerCase` (ASCII range, which covers the
strings this code produces). -/
def jsToLower (s : String) : String := ⟨s.data.map Char.toLower⟩

/-- String coercion of a JSON value inside a template literal, with fuel for
the nested-array case: atoms print exactly as JavaScript prints them
(numbers print their kept lexeme); arrays comma-join their elements with
null printing empty inside an array; objects print "[object Object]". -/
def jsDisplayFuel : Nat → Bool → Json → String
  | 0, _, _ => ""
  | _ + 1, inArr, Json.null => if inArr then "" else "null"
  | _ + 1, _, Json.bool true => "true"
  | _ + 1, _, Json.bool false => "false"
  | _ + 1, _, Json.num lexeme => lexeme
  | _ + 1, _, Json.str s => s
  | fuel + 1, _, Json.arr xs => String.intercalate "," (xs.map (jsDisplayFuel fuel true))
  | _ + 1, _, Json.obj _ => "[object Object]"

/-- String coercion of a JSON value in a template literal.  The fuel bounds
the array nesting depth; values nested a thousand arrays deep cannot arise
from the bounded-size replies this component receives. -/
def jsDisplay (j : Json) : String := jsDisplayFuel 1000 false j

/-- Template interpolation of a property read: a missing property prints
"undefined". -/
def jsDisplayOpt : Option Json → String
  | none => "undefined"
  | some j => jsDisplay j

/-- JavaScript whitespace for `String.prototype.trim` (space, tab, line
terminators, vertical tab, form feed, NBSP, BOM). -/
def isJsWhitespace (c : Char) : Bool :=
  c = ' ' || c = '\t' || c = '\n' || c = '\r' || c = Char.ofNat 11 ||
    c = Char.ofNat 12 || c = Char.ofNat 160 || c = Char.ofNat 8232 ||
    c = Char.ofNat 8233 || c = Char.ofNat 65279

/-- Model of `String.prototype.trim`: strip leading and trailing JavaScript
whitespace. -/
def jsTrim (s : String) : String :=
  ⟨((s.data.dropWhile isJsWhitespace).reverse.dropWhile isJsWhitespace).reverse⟩

/-- Model of `s.slice(0, n)` (first `n` characters; the strings involved are
within the basic plane, where code points and UTF-16 units coincide). -/
def jsSlice (s : String) (n : Nat) : String := ⟨s.data.take n⟩

/-- Message author tag, the `type` union of the message records
(`user | ai | seller`). -/
inductive MsgType where
  | user
  | ai
  | seller
deriving DecidableEq

/-- One chat entry, as both components build them: `id` is
`Date.now().toString()` (or that plus one for the assistant reply),
`timestamp` the clock value at creation. -/
structure ChatMessage where
  id : String
  type : MsgType
  content : String
  timestamp : Nat
  isAudio : Bool := false
  hasImage : Bool := false
deriving DecidableEq

/-- Outcome of one generation request against the remote completion
service: the reply text on success, or a thrown error (non-success status,
malformed body, or transport error). -/
inductive Outcome where
  | success (text : String)
  | failure
deriving DecidableEq

/-- Whether the request outcome is a success. -/
def Outcome.isSuccess : Outcome → Bool
  | Outcome.success _ => true
  | Outcome.failure => false

/-- Observable result of one send handler run: the resulting message log
and the effects emitted (network requests attempted, destructive error
toasts, non-error toasts). -/
structure SendResult where
  messages : List ChatMessage
  networkCalls : Nat
  errorToasts : Nat
  successToasts : Nat
deriving DecidableEq

/-- Count of log entries carrying a given author tag. -/
def countType (t : MsgType) (log : List ChatMessage) : Nat :=
  (log.filter (fun m => m.type == t)).length

/-- The log is an alternation of user/assistant pairs: one user entry
directly followed by one assistant entry, repeated. -/
def alternatesUA : List ChatMessage → Bool
  | [] => true
  | [_] => false
  | u :: a :: rest => u.type == MsgType.user && a.type == MsgType.ai && alternatesUA rest

namespace ConversationImageAnalyzer

/-- The fixed fallback `AnalysisResult` built in the `catch` branch of
`analyzeConversation` when no JSON object can be located or parsed in the
reply: neutral sentiment, fixed key points and tips, medium price
flexibility and urgency, and the raw reply truncated to 300 characters
with an ellipsis as the suggested response. -/
def fallbackResult (analysisText selectedCategory : String) : Json :=
  Json.obj
    [("sentiment", Json.str "neutral"),
     ("keyPoints",
      Json.arr
        [Json.str "AI analysis completed successfully",
         Json.str "Conversation details extracted from image",
         Json.str "Ready to provide negotiation guidance",
         Json.str ("Analysis tailored for " ++ selectedCategory ++ " transactions")]),
     ("suggestedResponse", Json.str (jsSlice analysisText 300 ++ "...")),
     ("negotiationTips",
      Json.arr
        [Json.str "Review the AI analysis carefully",
         Json.str "Consider the specific platform dynamics",
         Json.str "Focus on building rapport with the seller",
         Json.str "Present your offer with clear justification"]),
     ("priceAnalysis", Json.obj [("priceFlexibility", Json.str "medium")]),
     ("urgencyLevel", Json.str "medium"),
     ("sellerMotivation", Json.str "Analysis based on conversation content")]

/-- The located-and-parsed JSON of a reply: the regex span, if any, fed to
`JSON.parse`; `none` exactly when the extraction code would reach its
`catch` branch. -/
def extractParsed (analysisText : String) : Option Json :=
  (jsonMatchL analysisText.data).bind Json.parseL

/-- The JSON-extraction step of `analyzeConversation`: locate the regex
span, `JSON.parse` it, and on a missing span or a parse error substitute
the fixed fallback result.  A successfully parsed object is used as-is
with no field validation. -/
def extractAnalysis (analysisText selectedCategory : String) : Json :=
  match jsonMatchL analysisText.data with
  | some jsonSpan =>
    match Json.parseL jsonSpan with
    | some result => result
    | none => fallbackResult analysisText selectedCategory
  | none => fallbackResult analysisText selectedCategory

/-- Membership of a string property in a three-value enum domain. -/
def isEnum3 (v : Option Json) (a b c : String) : Bool :=
  match v with
  | some (Json.str s) => s == a || s == b || s == c
  | _ => false

/-- The property is an array whose elements are all strings. -/
def isStringArray : Option Json → Bool
  | some (Json.arr xs) => xs.all (fun x => match x with | Json.str _ => true | _ => false)
  | _ => false

/-- Conformance of a JSON value to the `AnalysisResult` interface of the
source: required `sentiment`, `urgencyLevel` and (when `priceAnalysis` is
present) `priceFlexibility` in their enum domains, string arrays for
`keyPoints` and `negotiationTips`, strings for `suggestedResponse` and
`sellerMotivation`, optional string `mentionedPrice`. -/
def isAnalysisShape (j : Json) : Bool :=
  isEnum3 (jsGet j "sentiment") "positive" "neutral" "negative" &&
  isStringArray (jsGet j "keyPoints") &&
  (jsGetStr j "suggestedResponse").isSome &&
  isStringArray (jsGet j "negotiationTips") &&
  (match jsGet j "priceAnalysis" with
   | none => true
   | some pa =>
     isEnum3 (jsGet pa "priceFlexibility") "high" "medium" "low" &&
     (match jsGet pa "mentionedPrice" with
      | none => true
      | some (Json.str _) => true
      | some _ => false)) &&
  isEnum3 (jsGet j "urgencyLevel") "high" "medium" "low" &&
  (jsGetStr j "sellerMotivation").isSome

end ConversationImageAnalyzer

namespace AITextChat

/-- Environment of one `handleSendMessage` invocation of the text chat:
the composed input text, the pending image attachment, the clock value
(`Date.now()`), and the outcome of the generation request. -/
structure SendInput where
  inputMessage : String
  uploadedImage : Option String
  now : Nat
  outcome : Outcome
deriving DecidableEq

/-- The optimistic user entry a send appends: id is the clock value, the
content falls back to "Shared an image" when the text is empty, and the
attachment flag mirrors the pending image. -/
def userMessageOf (i : SendInput) : ChatMessage :=
  { id := toString i.now
    type := MsgType.user
    content := if i.inputMessage = "" then "Shared an image" else i.inputMessage
    timestamp := i.now
    hasImage := i.uploadedImage.isSome }

/-- The assistant entry appended on a successful generation: id is the
clock value plus one, content is the reply text. -/
def aiMessageOf (i : SendInput) : ChatMessage :=
  { id := toString (i.now + 1)
    type := MsgType.ai
    content := match i.outcome with | Outcome.success t => t | Outcome.failure => ""
    timestamp := i.now }

/-- Model of `AITextChat.handleSendMessage`: a no-op when the trimmed text
is empty and no image is attached; otherwise append the optimistic user
entry, fire the generation request, and on success append the assistant
entry and raise the success toast, on failure raise one destructive error
toast and leave the log with just the user entry. -/
def handleSendMessage (messages : List ChatMessage) (i : SendInput) : SendResult :=
  if jsTrim i.inputMessage = "" ∧ i.uploadedImage = none then
    { messages := messages, networkCalls := 0, errorToasts := 0, successToasts := 0 }
  else
    let updatedMessages := messages ++ [userMessageOf i]
    match i.outcome with
    | Outcome.success _ =>
      { messages := updatedMessages ++ [aiMessageOf i]
        networkCalls := 1, errorToasts := 0, successToasts := 1 }
    | Outcome.failure =>
      { messages := updatedMessages, networkCalls := 1, errorToasts := 1, successToasts := 0 }

/-- A send that is not the empty-input no-op. -/
def ValidSend (i : SendInput) : Prop :=
  ¬(jsTrim i.inputMessage = "" ∧ i.uploadedImage = none)

instance (i : SendInput) : Decidable (ValidSend i) := by
  unfold ValidSend; infer_instance

/-- Iterate `handleSendMessage` over a sequence of send environments,
threading the message log. -/
def runSends : List ChatMessage → List SendInput → List ChatMessage
  | log, [] => log
  | log, i :: rest => runSends (handleSendMessage log i).messages rest

/-- Outcome of the Google Vision request in `analyzeImage`: a parsed reply
body carrying the optional extracted text, or a thrown error (transport
failure or a body that is not JSON).  The code never checks the HTTP
status here. -/
inductive VisionOutcome where
  | failure
  | reply (text : Option String)
deriving DecidableEq

/-- Model of `AITextChat.analyzeImage`: send the image to the vision
endpoint; on a parsed reply append one assistant entry wrapping the
extracted text (the fixed placeholder when the text is missing or empty,
via the `||` default) and raise the success toast; on a thrown error raise
one destructive toast and leave the log unchanged. -/
def analyzeImage (messages : List ChatMessage) (now : Nat) (outcome : VisionOutcome) : SendResult :=
  match outcome with
  | VisionOutcome.failure =>
    { messages := messages, networkCalls := 1, errorToasts := 1, successToasts := 0 }
  | VisionOutcome.reply t =>
    let text :=
      match t with
      | some s => if s = "" then "No text found in image." else s
      | none => "No text found in image."
    let analysisMessage : ChatMessage :=
      { id := toString now
        type := MsgType.ai
        content := "📷 Image Analysis Results:\n\n" ++ text ++
          "\n\nBased on this text from your image, I can help you craft negotiation strategies. What would you like to negotiate?"
        timestamp := now }
    { messages := messages ++ [analysisMessage]
      networkCalls := 1, errorToasts := 0, successToasts := 1 }

/-- Validation-and-dispatch facts of one image upload. -/
structure UploadOutcome where
  sizeToast : Bool
  typeToast : Bool
  successToast : Bool
  networkCalls : Nat
  imageAccepted : Bool
deriving DecidableEq

/-- Model of `AITextChat.handleImageUpload`: the handler performs no size
or MIME-type validation at all — it reads any selected file and invokes
`analyzeImage`, which issues the vision request. -/
def handleImageUpload (_size : Nat) (_mime : String) : UploadOutcome :=
  { sizeToast := false, typeToast := false, successToast := false
    networkCalls := 1, imageAccepted := true }

end AITextChat

namespace ConversationImageAnalyzer

/-- Model of `ConversationImageAnalyzer.handleImageUpload`: reject files
over the 10MB ceiling with the size-specific toast, then non-`image/*`
MIME types with the type-specific toast, both before any network call;
otherwise read the file locally and raise the upload-success toast. -/
def handleImageUpload (size : Nat) (mime : String) : AITextChat.UploadOutcome :=
  if size > 10 * 1024 * 1024 then
    { sizeToast := true, typeToast := false, successToast := false
      networkCalls := 0, imageAccepted := false }
  else if ¬ "image/".data.isPrefixOf mime.data then
    { sizeToast := false, typeToast := true, successToast := false
      networkCalls := 0, imageAccepted := false }
  else
    { sizeToast := false, typeToast := false, successToast := true
      networkCalls := 0, imageAccepted := true }

/-- Text and network effect of `generateContextualResponse`. -/
structure GenResult where
  text : String
  networkCalls : Nat
deriving DecidableEq

/-- Model of `generateContextualResponse`: with no analysis present it
returns the fixed guidance string without any network call; otherwise it
fires the completion request and returns the reply text, and its `catch`
converts any failure into a fixed apologetic string — it never throws. -/
def generateContextualResponse (analysis : Option Json) (outcome : Outcome) : GenResult :=
  match analysis with
  | none =>
    { text := "Please upload and analyze a conversation first so I can provide specific guidance."
      networkCalls := 0 }
  | some _ =>
    match outcome with
    | Outcome.success t => { text := t, networkCalls := 1 }
    | Outcome.failure =>
      { text := "I\x27m having trouble connecting to my analysis system. Please try again."
        networkCalls := 1 }

/-- Environment of one follow-up-chat `handleSendMessage` invocation. -/
structure ASendInput where
  inputMessage : String
  isRecording : Bool
  now : Nat
  outcome : Outcome
deriving DecidableEq

/-- The user entry the follow-up chat appends. -/
def userMessageOf (i : ASendInput) : ChatMessage :=
  { id := toString i.now
    type := MsgType.user
    content := i.inputMessage
    timestamp := i.now
    isAudio := i.isRecording }

/-- The assistant entry the follow-up chat appends: always present, since
`generateContextualResponse` never throws. -/
def aiMessageOf (analysis : Option Json) (i : ASendInput) : ChatMessage :=
  { id := toString (i.now + 1)
    type := MsgType.ai
    content := (generateContextualResponse analysis i.outcome).text
    timestamp := i.now }

/-- Model of `ConversationImageAnalyzer.handleSendMessage`: a no-op on
empty trimmed text; otherwise append the user entry and then the assistant
entry built from `generateContextualResponse` — the `catch` branch is
unreachable, so no error toast is ever raised. -/
def handleSendMessage (chatMessages : List ChatMessage) (analysis : Option Json)
    (i : ASendInput) : SendResult :=
  if jsTrim i.inputMessage = "" then
    { messages := chatMessages, networkCalls := 0, errorToasts := 0, successToasts := 0 }
  else
    let updatedMessages := chatMessages ++ [userMessageOf i]
    { messages := updatedMessages ++ [aiMessageOf analysis i]
      networkCalls := (generateContextualResponse analysis i.outcome).networkCalls
      errorToasts := 0, successToasts := 0 }

/-- A follow-up send that is not the empty-input no-op. -/
def ValidASend (i : ASendInput) : Prop := ¬ jsTrim i.inputMessage = ""

instance (i : ASendInput) : Decidable (ValidASend i) := by
  unfold ValidASend; infer_instance

/-- Iterate the follow-up-chat send handler over a sequence of send
environments; `analysisResult` does not change across sends. -/
def runSends (analysis : Option Json) : List ChatMessage → List ASendInput → List ChatMessage
  | log, [] => log
  | log, i :: rest => runSends analysis (handleSendMessage log analysis i).messages rest

/-- Outcome of the multimodal analysis request in `analyzeConversation`:
the reply text, or a thrown error (non-success status, malformed body, or
transport failure). -/
inductive AnalyzeOutcome where
  | failure
  | reply (analysisText : String)
deriving DecidableEq

/-- Resulting state and effects of one `analyzeConversation` run. -/
structure AnalyzeEffects where
  chatMessages : List ChatMessage
  analysisResult : Option Json
  networkCalls : Nat
  errorToasts : Nat
  successToasts : Nat

/-- The initial assistant entry a successful analysis writes into the
(fresh) chat: it interpolates the category, the lower-cased
`sellerMotivation` and the `sentiment` of the extraction result. -/
def initialMessageOf (result : Json) (selectedCategory motivation : String)
    (now : Nat) : ChatMessage :=
  { id := toString now
    type := MsgType.ai
    content := "I\x27ve analyzed your conversation screenshot using Gemini 2.5. Based on the " ++
      selectedCategory ++ " negotiation, I can see that " ++ jsToLower motivation ++
      ". The seller\x27s sentiment appears " ++ jsDisplayOpt (jsGet result "sentiment") ++
      ". Feel free to ask me any questions about the analysis or negotiation strategy!"
    timestamp := now }

/-- Model of `analyzeConversation`: guard on a missing image and then a
missing category (one destructive toast each, no network); then fire the
multimodal request.  A thrown request raises one destructive toast and
changes nothing.  On a reply, run the extraction; the analysis result is
stored first, and then the chat log is REPLACED by the single initial
assistant message — unless `result.sellerMotivation` is not a string, in
which case building that message throws (`toLowerCase` on a non-string),
the outer catch raises the destructive toast, and the chat log survives
while the (possibly malformed) analysis result stays stored. -/
def analyzeConversation (chatMessages : List ChatMessage) (analysisResult0 : Option Json)
    (uploadedImage : Option String) (selectedCategory : String) (now : Nat)
    (outcome : AnalyzeOutcome) : AnalyzeEffects :=
  match uploadedImage with
  | none =>
    { chatMessages := chatMessages, analysisResult := analysisResult0
      networkCalls := 0, errorToasts := 1, successToasts := 0 }
  | some _ =>
    if selectedCategory = "" then
      { chatMessages := chatMessages, analysisResult := analysisResult0
        networkCalls := 0, errorToasts := 1, successToasts := 0 }
    else
      match outcome with
      | AnalyzeOutcome.failure =>
        { chatMessages := chatMessages, analysisResult := analysisResult0
          networkCalls := 1, errorToasts := 1, successToasts := 0 }
      | AnalyzeOutcome.reply analysisText =>
        let result := extractAnalysis analysisText selectedCategory
        match jsGetStr result "sellerMotivation" with
        | some motivation =>
          { chatMessages := [initialMessageOf result selectedCategory motivation now]
            analysisResult := some result
            networkCalls := 1, errorToasts := 0, successToasts := 1 }
        | none =>
          { chatMessages := chatMessages, analysisResult := some result
            networkCalls := 1, errorToasts := 1, successToasts := 0 }

end ConversationImageAnalyzer

/-- A string of only JavaScript whitespace trims to the empty string. -/
lemma jsTrim_eq_empty_of_all_ws (s : String)
    (h : ∀ c ∈ s.data, isJsWhitespace c = true) : jsTrim s = "" := by
  unfold jsTrim
  rw [List.dropWhile_eq_nil_iff.mpr fun c hc => h c hc]
  rfl

/-- C9: a send invoked with empty or whitespace-only text (and, for the
text chat, no pending attachment) is a no-op in both components: the
message log is unchanged, nothing is appended, no network request is made
and no toast is raised. -/
theorem empty_send_noop (log : List ChatMessage) (i : AITextChat.SendInput)
    (alog : List ChatMessage) (analysis : Option Json)
    (ai : ConversationImageAnalyzer.ASendInput)
    (h1 : ∀ c ∈ i.inputMessage.data, isJsWhitespace c = true)
    (h2 : i.uploadedImage = none)
    (h3 : ∀ c ∈ ai.inputMessage.data, isJsWhitespace c = true) :
    AITextChat.handleSendMessage log i =
      { messages := log, networkCalls := 0, errorToasts := 0, successToasts := 0 } ∧
    ConversationImageAnalyzer.handleSendMessage alog analysis ai =
      { messages := alog, networkCalls := 0, errorToasts := 0, successToasts := 0 } := by
  constructor
  · unfold AITextChat.handleSendMessage
    rw [if_pos ⟨jsTrim_eq_empty_of_all_ws _ h1, h2⟩]
  · unfold ConversationImageAnalyzer.handleSendMessage
    rw [if_pos (jsTrim_eq_empty_of_all_ws _ h3)]

/-- Witness for C9 at a whitespace-only input and an empty input. -/
theorem empty_send_noop_witness :
    AITextChat.handleSendMessage [] ⟨" \t ", none, 5, Outcome.failure⟩ =
      { messages := [], networkCalls := 0, errorToasts := 0, successToasts := 0 } ∧
    ConversationImageAnalyzer.handleSendMessage [] none ⟨"", false, 5, Outcome.failure⟩ =
      { messages := [], networkCalls := 0, errorToasts := 0, successToasts := 0 } :=
  empty_send_noop [] ⟨" \t ", none, 5, Outcome.failure⟩ [] none
    ⟨"", false, 5, Outcome.failure⟩ (by decide) rfl (by decide)

/-- C10: a follow-up send while no analysis is present makes no network
call: the contextual generator immediately returns the fixed guidance
string, which the send appends as the assistant entry. -/
theorem no_analysis_guidance (log : List ChatMessage)
    (i : ConversationImageAnalyzer.ASendInput)
    (h : ConversationImageAnalyzer.ValidASend i) :
    ConversationImageAnalyzer.generateContextualResponse none i.outcome =
      { text := "Please upload and analyze a conversation first so I can provide specific guidance."
        networkCalls := 0 } ∧
    (ConversationImageAnalyzer.handleSendMessage log none i).messages =
      log ++ [ConversationImageAnalyzer.userMessageOf i,
        { id := toString (i.now + 1), type := MsgType.ai,
          content := "Please upload and analyze a conversation first so I can provide specific guidance.",
          timestamp := i.now }] ∧
    (ConversationImageAnalyzer.handleSendMessage log none i).networkCalls = 0 := by
  refine ⟨rfl, ?_, ?_⟩ <;>
    (unfold ConversationImageAnalyzer.handleSendMessage; rw [if_neg h]) <;>
    simp [ConversationImageAnalyzer.aiMessageOf,
      ConversationImageAnalyzer.generateContextualResponse]

/-- Witness for C10 at a concrete send with no analysis present. -/
theorem no_analysis_guidance_witness :
    (ConversationImageAnalyzer.handleSendMessage [] none
        ⟨"what now?", false, 3, Outcome.failure⟩).messages =
      [] ++ [ConversationImageAnalyzer.userMessageOf ⟨"what now?", false, 3, Outcome.failure⟩,
        { id := toString (3 + 1), type := MsgType.ai,
          content := "Please upload and analyze a conversation first so I can provide specific guidance.",
          timestamp := 3 }] ∧
    (ConversationImageAnalyzer.handleSendMessage [] none
      ⟨"what now?", false, 3, Outcome.failure⟩).networkCalls = 0 :=
  (no_analysis_guidance [] ⟨"what now?", false, 3, Outcome.failure⟩ (by decide)).2

/-- C1 (amended): on a failed generation call the TEXT CHAT send appends
exactly the one optimistic user entry, no assistant entry, and raises one
destructive error toast; the image-analyzer follow-up send instead appends
the user entry AND an assistant entry carrying the fixed apology string
returned by the internal catch of the generator, and raises no error toast. -/
theorem failed_send_effects (log : List ChatMessage) (i : AITextChat.SendInput)
    (hv : AITextChat.ValidSend i) (hf : i.outcome = Outcome.failure)
    (alog : List ChatMessage) (analysis : Json)
    (ai : ConversationImageAnalyzer.ASendInput)
    (hav : ConversationImageAnalyzer.ValidASend ai)
    (haf : ai.outcome = Outcome.failure) :
    ((AITextChat.handleSendMessage log i).messages = log ++ [AITextChat.userMessageOf i] ∧
      (AITextChat.handleSendMessage log i).errorToasts = 1 ∧
      (AITextChat.handleSendMessage log i).successToasts = 0) ∧
    ((ConversationImageAnalyzer.handleSendMessage alog (some analysis) ai).messages =
        alog ++ [ConversationImageAnalyzer.userMessageOf ai,
          { id := toString (ai.now + 1), type := MsgType.ai,
            content := "I\x27m having trouble connecting to my analysis system. Please try again.",
            timestamp := ai.now }] ∧
      (ConversationImageAnalyzer.handleSendMessage alog (some analysis) ai).errorToasts = 0) := by
  constructor
  · unfold AITextChat.handleSendMessage
    rw [if_neg hv, hf]
    exact ⟨rfl, rfl, rfl⟩
  · unfold ConversationImageAnalyzer.handleSendMessage
    rw [if_neg hav]
    refine ⟨?_, rfl⟩
    simp [ConversationImageAnalyzer.aiMessageOf,
      ConversationImageAnalyzer.generateContextualResponse, haf]

/-- Witness for C1 (amended) at concrete failing sends. -/
theorem failed_send_effects_witness :
    ((AITextChat.handleSendMessage [] ⟨"hi", none, 0, Outcome.failure⟩).messages =
        [] ++ [AITextChat.userMessageOf ⟨"hi", none, 0, Outcome.failure⟩] ∧
      (AITextChat.handleSendMessage [] ⟨"hi", none, 0, Outcome.failure⟩).errorToasts = 1 ∧
      (AITextChat.handleSendMessage [] ⟨"hi", none, 0, Outcome.failure⟩).successToasts = 0) ∧
    ((ConversationImageAnalyzer.handleSendMessage [] (some (Json.obj []))
          ⟨"hi", false, 0, Outcome.failure⟩).messages =
        [] ++ [ConversationImageAnalyzer.userMessageOf ⟨"hi", false, 0, Outcome.failure⟩,
          { id := toString (0 + 1), type := MsgType.ai,
            content := "I\x27m having trouble connecting to my analysis system. Please try again.",
            timestamp := 0 }] ∧
      (ConversationImageAnalyzer.handleSendMessage [] (some (Json.obj []))
        ⟨"hi", false, 0, Outcome.failure⟩).errorToasts = 0) :=
  failed_send_effects [] ⟨"hi", none, 0, Outcome.failure⟩ (by decide) rfl
    [] (Json.obj []) ⟨"hi", false, 0, Outcome.failure⟩ (by decide) rfl

/-- Counterexample to C1 as stated: in the image-analyzer follow-up chat a
failing generation call yields a log with one assistant entry (not zero)
and raises zero error notifications (not one). -/
theorem failed_send_claim_false :
    countType MsgType.ai
        (ConversationImageAnalyzer.handleSendMessage [] (some (Json.obj []))
          ⟨"hi", false, 0, Outcome.failure⟩).messages = 1 ∧
    (ConversationImageAnalyzer.handleSendMessage [] (some (Json.obj []))
      ⟨"hi", false, 0, Outcome.failure⟩).errorToasts = 0 := by
  exact ⟨rfl, rfl⟩

/-- C5 (amended): in the image-analyzer component an oversized file is
rejected with the size-specific toast and a non-image MIME type with the
type-specific toast, both before any network call; the text chat
component has an upload path that performs no validation at all and proceeds
to the vision request. -/
theorem upload_validation :
    (∀ size mime, size > 10 * 1024 * 1024 →
      ConversationImageAnalyzer.handleImageUpload size mime =
        { sizeToast := true, typeToast := false, successToast := false
          networkCalls := 0, imageAccepted := false }) ∧
    (∀ size mime, size ≤ 10 * 1024 * 1024 →
      "image/".data.isPrefixOf mime.data = false →
      ConversationImageAnalyzer.handleImageUpload size mime =
        { sizeToast := false, typeToast := true, successToast := false
          networkCalls := 0, imageAccepted := false }) ∧
    (∀ size mime, AITextChat.handleImageUpload size mime =
      { sizeToast := false, typeToast := false, successToast := false
        networkCalls := 1, imageAccepted := true }) := by
  refine ⟨fun size mime h => ?_, fun size mime h1 h2 => ?_, fun size mime => rfl⟩
  · unfold ConversationImageAnalyzer.handleImageUpload
    rw [if_pos h]
  · unfold ConversationImageAnalyzer.handleImageUpload
    rw [if_neg (by omega), if_pos (by simp [h2])]

/-- Witness for C5 (amended) at a 15MB image and a 4-byte text file. -/
theorem upload_validation_witness :
    ConversationImageAnalyzer.handleImageUpload (15 * 1024 * 1024) "image/png" =
      { sizeToast := true, typeToast := false, successToast := false
        networkCalls := 0, imageAccepted := false } ∧
    ConversationImageAnalyzer.handleImageUpload 4 "text/plain" =
      { sizeToast := false, typeToast := true, successToast := false
        networkCalls := 0, imageAccepted := false } :=
  ⟨upload_validation.1 (15 * 1024 * 1024) "image/png" (by decide),
   upload_validation.2.1 4 "text/plain" (by decide) (by decide)⟩

/-- Counterexample to C5 as stated: the TEXT CHAT upload path accepts a
15MB image without the size-specific rejection and issues the vision
request, and accepts a text file without the type-specific rejection. -/
theorem upload_validation_claim_false :
    (AITextChat.handleImageUpload (15 * 1024 * 1024) "image/png").networkCalls = 1 ∧
    (AITextChat.handleImageUpload (15 * 1024 * 1024) "image/png").sizeToast = false ∧
    (AITextChat.handleImageUpload 4 "text/plain").typeToast = false ∧
    (AITextChat.handleImageUpload 4 "text/plain").networkCalls = 1 := by
  exact ⟨rfl, rfl, rfl, rfl⟩

/-- C7: two text-chat sends one millisecond apart produce a duplicate
message id — the assistant entry of the first send gets id `Date.now() + 1`,
which equals the `Date.now()` of the second send — so id uniqueness fails on
reachable logs. -/
theorem duplicate_ids_same_millisecond :
    ¬ ((AITextChat.runSends []
        [⟨"first", none, 1000, Outcome.success "reply one"⟩,
         ⟨"second", none, 1001, Outcome.success "reply two"⟩]).map ChatMessage.id).Nodup := by
  decide

/-- C8 (amended): every log-touching operation of either component except
a successful analysis leaves the prior log as a prefix (entries are only
appended); a successful `analyzeConversation` run instead REPLACES the
chat log, so every run of it either leaves the log unchanged or resets it
to a single fresh assistant message. -/
theorem log_append_only_ops :
    (∀ log (i : AITextChat.SendInput),
      log <+: (AITextChat.handleSendMessage log i).messages) ∧
    (∀ log analysis (i : ConversationImageAnalyzer.ASendInput),
      log <+: (ConversationImageAnalyzer.handleSendMessage log analysis i).messages) ∧
    (∀ log now outcome, log <+: (AITextChat.analyzeImage log now outcome).messages) ∧
    (∀ log a0 img cat now outcome,
      (ConversationImageAnalyzer.analyzeConversation log a0 img cat now outcome).chatMessages
          = log ∨
      ∃ m, (ConversationImageAnalyzer.analyzeConversation log a0 img cat now
          outcome).chatMessages = [m]) := by
  refine ⟨fun log i => ?_, fun log analysis i => ?_, fun log now outcome => ?_,
    fun log a0 img cat now outcome => ?_⟩
  · unfold AITextChat.handleSendMessage
    split
    · exact List.prefix_refl _
    · cases hi : i.outcome with
      | success t =>
        exact ⟨[AITextChat.userMessageOf i, AITextChat.aiMessageOf i], by simp⟩
      | failure => exact ⟨[AITextChat.userMessageOf i], rfl⟩
  · unfold ConversationImageAnalyzer.handleSendMessage
    split
    · exact List.prefix_refl _
    · exact ⟨[ConversationImageAnalyzer.userMessageOf i,
        ConversationImageAnalyzer.aiMessageOf analysis i], by simp⟩
  · unfold AITextChat.analyzeImage
    cases outcome with
    | failure => exact List.prefix_refl _
    | reply t => exact ⟨_, rfl⟩
  · cases img with
    | none => exact Or.inl rfl
    | some v =>
      by_cases hcat : cat = ""
      · exact Or.inl (by simp [ConversationImageAnalyzer.analyzeConversation, hcat])
      · cases outcome with
        | failure =>
          exact Or.inl (by simp [ConversationImageAnalyzer.analyzeConversation, hcat])
        | reply analysisText =>
          cases hm : jsGetStr
              (ConversationImageAnalyzer.extractAnalysis analysisText cat)
              "sellerMotivation" with
          | some motivation =>
            exact Or.inr ⟨ConversationImageAnalyzer.initialMessageOf
              (ConversationImageAnalyzer.extractAnalysis analysisText cat) cat motivation now,
              by simp [ConversationImageAnalyzer.analyzeConversation, hcat, hm]⟩
          | none =>
            exact Or.inl (by simp [ConversationImageAnalyzer.analyzeConversation, hcat, hm])

/-- Counterexample to C8 as stated: a successful analysis run with a
two-entry prior chat log replaces it by a single fresh assistant message,
so the prior log is not a prefix of the resulting log. -/
theorem analysis_resets_chat_cex :
    (ConversationImageAnalyzer.analyzeConversation
        [{ id := "1", type := MsgType.ai, content := "a", timestamp := 1 },
         { id := "2", type := MsgType.user, content := "b", timestamp := 2 }]
        none (some "img") "car" 7
        (ConversationImageAnalyzer.AnalyzeOutcome.reply "plain text")).chatMessages.length
        = 1 ∧
    ¬ ([{ id := "1", type := MsgType.ai, content := "a", timestamp := 1 },
        { id := "2", type := MsgType.user, content := "b", timestamp := 2 }] <+:
      (ConversationImageAnalyzer.analyzeConversation
        [{ id := "1", type := MsgType.ai, content := "a", timestamp := 1 },
         { id := "2", type := MsgType.user, content := "b", timestamp := 2 }]
        none (some "img") "car" 7
        (ConversationImageAnalyzer.AnalyzeOutcome.reply "plain text")).chatMessages) :=
  ⟨rfl, fun h => absurd h.length_le (by decide)⟩

/-- C2: a reply body in which no JSON object can be located and parsed
makes extraction return (not throw) the fixed fallback result, whose
priceFlexibility and urgencyLevel are "medium" and whose suggested
response is the raw reply truncated to 300 characters with a trailing
ellipsis. -/
theorem no_json_fallback (analysisText selectedCategory : String)
    (h : ConversationImageAnalyzer.extractParsed analysisText = none) :
    ConversationImageAnalyzer.extractAnalysis analysisText selectedCategory =
      ConversationImageAnalyzer.fallbackResult analysisText selectedCategory ∧
    Option.bind
        (jsGet (ConversationImageAnalyzer.extractAnalysis analysisText selectedCategory)
          "priceAnalysis") (fun pa => jsGet pa "priceFlexibility") =
      some (Json.str "medium") ∧
    jsGet (ConversationImageAnalyzer.extractAnalysis analysisText selectedCategory)
        "urgencyLevel" = some (Json.str "medium") ∧
    jsGet (ConversationImageAnalyzer.extractAnalysis analysisText selectedCategory)
        "suggestedResponse" = some (Json.str (jsSlice analysisText 300 ++ "...")) := by
  have hfall : ConversationImageAnalyzer.extractAnalysis analysisText selectedCategory =
      ConversationImageAnalyzer.fallbackResult analysisText selectedCategory := by
    unfold ConversationImageAnalyzer.extractParsed at h
    unfold ConversationImageAnalyzer.extractAnalysis
    cases hm : jsonMatchL analysisText.data with
    | none => rfl
    | some span =>
      rw [hm] at h
      simp only [Option.some_bind] at h
      change (match Json.parseL span with
        | some result => result
        | none =>
          ConversationImageAnalyzer.fallbackResult analysisText selectedCategory) =
        ConversationImageAnalyzer.fallbackResult analysisText selectedCategory
      rw [h]
  refine ⟨hfall, ?_, ?_, ?_⟩ <;> rw [hfall] <;> rfl

/-- Witness for C2 at a reply with no braces at all. -/
theorem no_json_fallback_witness :
    ConversationImageAnalyzer.extractAnalysis "no structured data here" "car" =
      ConversationImageAnalyzer.fallbackResult "no structured data here" "car" ∧
    Option.bind
        (jsGet (ConversationImageAnalyzer.extractAnalysis "no structured data here" "car")
          "priceAnalysis") (fun pa => jsGet pa "priceFlexibility") =
      some (Json.str "medium") ∧
    jsGet (ConversationImageAnalyzer.extractAnalysis "no structured data here" "car")
        "urgencyLevel" = some (Json.str "medium") ∧
    jsGet (ConversationImageAnalyzer.extractAnalysis "no structured data here" "car")
        "suggestedResponse" =
      some (Json.str (jsSlice "no structured data here" 300 ++ "...")) :=
  no_json_fallback "no structured data here" "car" rfl

/-- C4 (amended): the fallback is substituted only when locating or
parsing the JSON span fails; a span that parses successfully is returned
as-is, with no validation of required fields or enum domains, so the
produced result can be an incomplete or malformed object. -/
theorem parsed_object_passthrough (analysisText selectedCategory : String) (j : Json)
    (h : ConversationImageAnalyzer.extractParsed analysisText = some j) :
    ConversationImageAnalyzer.extractAnalysis analysisText selectedCategory = j := by
  unfold ConversationImageAnalyzer.extractParsed at h
  unfold ConversationImageAnalyzer.extractAnalysis
  cases hm : jsonMatchL analysisText.data with
  | none => rw [hm] at h; simp at h
  | some span =>
    rw [hm] at h
    simp only [Option.some_bind] at h
    change (match Json.parseL span with
      | some result => result
      | none =>
        ConversationImageAnalyzer.fallbackResult analysisText selectedCategory) = j
    rw [h]

/-- Witness for C4 (amended): a parsed object lacking every required field
is returned unchanged. -/
theorem parsed_object_passthrough_witness :
    ConversationImageAnalyzer.extractAnalysis "\x7b\"foo\":\"bar\"\x7d" "car" =
      Json.obj [("foo", Json.str "bar")] :=
  parsed_object_passthrough "\x7b\"foo\":\"bar\"\x7d" "car"
    (Json.obj [("foo", Json.str "bar")]) rfl

/-- Counterexample to C4 as stated: a reply whose located span parses but
has none of the required AnalysisResult fields does NOT get the fallback —
extraction returns the incomplete object itself, which fails the
AnalysisResult shape. -/
theorem missing_fields_fallback_claim_false :
    ConversationImageAnalyzer.extractParsed "\x7b\"foo\":\"bar\"\x7d" =
      some (Json.obj [("foo", Json.str "bar")]) ∧
    ConversationImageAnalyzer.isAnalysisShape
      (ConversationImageAnalyzer.extractAnalysis "\x7b\"foo\":\"bar\"\x7d" "car") = false ∧
    jsGet (ConversationImageAnalyzer.extractAnalysis "\x7b\"foo\":\"bar\"\x7d" "car")
        "urgencyLevel" = none ∧
    jsGet (ConversationImageAnalyzer.extractAnalysis "\x7b\"foo\":\"bar\"\x7d" "car")
        "foo" = some (Json.str "bar") :=
  ⟨rfl, rfl, rfl, rfl⟩

namespace AITextChat

/-- The user/assistant entry pairs a sequence of sends produces, in call
order. -/
def sendPairs : List SendInput → List ChatMessage
  | [] => []
  | i :: rest => userMessageOf i :: aiMessageOf i :: sendPairs rest

/-- A valid successful text-chat send appends exactly its user and
assistant entries. -/
lemma textSend_success_messages (log : List ChatMessage) (i : SendInput)
    (hv : ValidSend i) (hs : i.outcome.isSuccess = true) :
    (handleSendMessage log i).messages = log ++ [userMessageOf i, aiMessageOf i] := by
  unfold handleSendMessage
  rw [if_neg hv]
  cases hi : i.outcome with
  | success t => simp
  | failure => rw [hi] at hs; exact absurd hs (by simp [Outcome.isSuccess])

/-- A sequence of valid successful text-chat sends appends exactly its
pair list. -/
lemma textRunSends_eq (inputs : List SendInput) :
    ∀ log, (∀ i ∈ inputs, ValidSend i ∧ i.outcome.isSuccess = true) →
      runSends log inputs = log ++ sendPairs inputs := by
  induction inputs with
  | nil => intro log _; simp [runSends, sendPairs]
  | cons i rest ih =>
    intro log h
    have hi := h i (by simp)
    show runSends (handleSendMessage log i).messages rest = _
    rw [textSend_success_messages log i hi.1 hi.2,
      ih _ (fun j hj => h j (by simp [hj]))]
    simp [sendPairs]

/-- The pair list has twice as many entries as there are sends. -/
lemma textSendPairs_length (inputs : List SendInput) :
    (sendPairs inputs).length = 2 * inputs.length := by
  induction inputs with
  | nil => rfl
  | cons i rest ih => simp [sendPairs, ih]; ring

/-- The pair list alternates user/assistant entries. -/
lemma textSendPairs_alternates (inputs : List SendInput) :
    alternatesUA (sendPairs inputs) = true := by
  induction inputs with
  | nil => rfl
  | cons i rest ih => exact ih

end AITextChat

namespace ConversationImageAnalyzer

/-- The user/assistant entry pairs a sequence of follow-up sends produces,
in call order. -/
def sendPairs (analysis : Option Json) : List ASendInput → List ChatMessage
  | [] => []
  | i :: rest => userMessageOf i :: aiMessageOf analysis i :: sendPairs analysis rest

/-- A valid follow-up send appends exactly its user and assistant
entries (the generator never throws). -/
lemma anaSend_messages (log : List ChatMessage) (analysis : Option Json)
    (i : ASendInput) (hv : ValidASend i) :
    (handleSendMessage log analysis i).messages =
      log ++ [userMessageOf i, aiMessageOf analysis i] := by
  unfold handleSendMessage
  rw [if_neg hv]
  simp

/-- A sequence of valid follow-up sends appends exactly its pair list. -/
lemma anaRunSends_eq (analysis : Option Json) (inputs : List ASendInput) :
    ∀ log, (∀ i ∈ inputs, ValidASend i) →
      runSends analysis log inputs = log ++ sendPairs analysis inputs := by
  induction inputs with
  | nil => intro log _; simp [runSends, sendPairs]
  | cons i rest ih =>
    intro log h
    show runSends analysis (handleSendMessage log analysis i).messages rest = _
    rw [anaSend_messages log analysis i (h i (by simp)),
      ih _ (fun j hj => h j (by simp [hj]))]
    simp [sendPairs]

/-- The follow-up pair list has twice as many entries as there are
sends. -/
lemma anaSendPairs_length (analysis : Option Json) (inputs : List ASendInput) :
    (sendPairs analysis inputs).length = 2 * inputs.length := by
  induction inputs with
  | nil => rfl
  | cons i rest ih => simp [sendPairs, ih]; ring

/-- The follow-up pair list alternates user/assistant entries. -/
lemma anaSendPairs_alternates (analysis : Option Json) (inputs : List ASendInput) :
    alternatesUA (sendPairs analysis inputs) = true := by
  induction inputs with
  | nil => rfl
  | cons i rest ih => exact ih

end ConversationImageAnalyzer

/-- C6: starting from an empty log, a sequence of n valid successful sends
yields a log of exactly 2n entries — the user/assistant pair of each send
in call order — in both the text chat and the image-analyzer follow-up
chat. -/
theorem successful_sends_log_shape
    (inputs : List AITextChat.SendInput)
    (analysis : Option Json) (ainputs : List ConversationImageAnalyzer.ASendInput)
    (h1 : ∀ i ∈ inputs, AITextChat.ValidSend i ∧ i.outcome.isSuccess = true)
    (h2 : ∀ i ∈ ainputs, ConversationImageAnalyzer.ValidASend i ∧
      i.outcome.isSuccess = true) :
    (AITextChat.runSends [] inputs = AITextChat.sendPairs inputs ∧
     (AITextChat.runSends [] inputs).length = 2 * inputs.length ∧
     alternatesUA (AITextChat.runSends [] inputs) = true) ∧
    (ConversationImageAnalyzer.runSends analysis [] ainputs =
        ConversationImageAnalyzer.sendPairs analysis ainputs ∧
     (ConversationImageAnalyzer.runSends analysis [] ainputs).length = 2 * ainputs.length ∧
     alternatesUA (ConversationImageAnalyzer.runSends analysis [] ainputs) = true) := by
  have e1 : AITextChat.runSends [] inputs = AITextChat.sendPairs inputs := by
    simpa using AITextChat.textRunSends_eq inputs [] h1
  have e2 : ConversationImageAnalyzer.runSends analysis [] ainputs =
      ConversationImageAnalyzer.sendPairs analysis ainputs := by
    simpa using ConversationImageAnalyzer.anaRunSends_eq analysis ainputs []
      (fun i hi => (h2 i hi).1)
  refine ⟨⟨e1, ?_, ?_⟩, ⟨e2, ?_, ?_⟩⟩
  · rw [e1]; exact AITextChat.textSendPairs_length inputs
  · rw [e1]; exact AITextChat.textSendPairs_alternates inputs
  · rw [e2]; exact ConversationImageAnalyzer.anaSendPairs_length analysis ainputs
  · rw [e2]; exact ConversationImageAnalyzer.anaSendPairs_alternates analysis ainputs

/-- Witness for C6 at two concrete successful text-chat sends and one
concrete follow-up send. -/
theorem successful_sends_log_shape_witness :
    (AITextChat.runSends []
        [⟨"offer 90", none, 10, Outcome.success "ok"⟩,
         ⟨"counter", none, 20, Outcome.success "fine"⟩]).length = 2 * 2 ∧
    alternatesUA (AITextChat.runSends []
        [⟨"offer 90", none, 10, Outcome.success "ok"⟩,
         ⟨"counter", none, 20, Outcome.success "fine"⟩]) = true ∧
    (ConversationImageAnalyzer.runSends none []
        [⟨"q1", false, 10, Outcome.success "a1"⟩]).length = 2 * 1 :=
  ⟨(successful_sends_log_shape
      [⟨"offer 90", none, 10, Outcome.success "ok"⟩,
       ⟨"counter", none, 20, Outcome.success "fine"⟩] none
      [⟨"q1", false, 10, Outcome.success "a1"⟩] (by decide) (by decide)).1.2.1,
   (successful_sends_log_shape
      [⟨"offer 90", none, 10, Outcome.success "ok"⟩,
       ⟨"counter", none, 20, Outcome.success "fine"⟩] none
      [⟨"q1", false, 10, Outcome.success "a1"⟩] (by decide) (by decide)).1.2.2,
   (successful_sends_log_shape
      [⟨"offer 90", none, 10, Outcome.success "ok"⟩,
       ⟨"counter", none, 20, Outcome.success "fine"⟩] none
      [⟨"q1", false, 10, Outcome.success "a1"⟩] (by decide) (by decide)).2.2.1⟩

/-- Dropping while a predicate holds skips over a block that satisfies it
everywhere. -/
lemma dropWhile_append_of_forall (l1 l2 : List Char) {p : Char → Bool}
    (h : ∀ c ∈ l1, p c = true) :
    (l1 ++ l2).dropWhile p = l2.dropWhile p := by
  induction l1 with
  | nil => rfl
  | cons x xs ih =>
    rw [List.cons_append, List.dropWhile_cons, if_pos (h x (by simp))]
    exact ih (fun c hc => h c (by simp [hc]))

/-- The regex span of a reply that embeds a braced block in brace-free
prose is exactly that block: with no `\x7b` before it and no `\x7d` after
it, the first opening brace and the last closing brace are the
delimiters of the block itself. -/
lemma jsonMatchL_embedded (pre mid post : List Char)
    (hpre : ∀ c ∈ pre, c ≠ '{')
    (hpost : ∀ c ∈ post, c ≠ '}') :
    jsonMatchL (pre ++ ('{' :: (mid ++ ['}'])) ++ post) =
      some ('{' :: (mid ++ ['}'])) := by
  have hb : ∀ c ∈ pre, (c != '{') = true := fun c hc => by
    simpa [bne_iff_ne] using hpre c hc
  have hb2 : ∀ c ∈ post.reverse, (c != '}') = true := fun c hc => by
    simp only [List.mem_reverse] at hc
    simpa [bne_iff_ne] using hpost c hc
  have h1 : (pre ++ ('{' :: (mid ++ ['}'])) ++ post).dropWhile (fun c => c != '{') =
      '{' :: ((mid ++ ['}']) ++ post) := by
    rw [List.append_assoc, dropWhile_append_of_forall pre _ hb,
      show ('{' :: (mid ++ ['}'])) ++ post = '{' :: ((mid ++ ['}']) ++ post) from rfl,
      List.dropWhile_cons, if_neg (by simp)]
  have hrev : ('{' :: ((mid ++ ['}']) ++ post)).reverse =
      post.reverse ++ ('}' :: (mid.reverse ++ ['{'])) := by
    simp
  have h2 : ('{' :: ((mid ++ ['}']) ++ post)).reverse.dropWhile (fun c => c != '}') =
      '}' :: (mid.reverse ++ ['{']) := by
    rw [hrev, dropWhile_append_of_forall _ _ hb2, List.dropWhile_cons, if_neg (by simp)]
  unfold jsonMatchL
  rw [h1]
  change (match (('{' :: ((mid ++ ['}']) ++ post)).reverse.dropWhile
      (fun c => c != '}')).reverse with
    | [] => none
    | r => some r) = some ('{' :: (mid ++ ['}']))
  rw [h2, show ('}' :: (mid.reverse ++ ['{'])).reverse = '{' :: (mid ++ ['}']) from by simp]

/-- C3 (amended): a reply that embeds a well-formed JSON object of the
AnalysisResult shape in prose containing no other braces — no opening
brace before the object and no closing brace after it — has the object
located, parsed and returned unchanged by extraction. -/
theorem embedded_json_roundtrip (s : String) (pre mid post : List Char)
    (selectedCategory : String) (j : Json)
    (hs : s.data = pre ++ ('{' :: (mid ++ ['}'])) ++ post)
    (hpre : ∀ c ∈ pre, c ≠ '{')
    (hpost : ∀ c ∈ post, c ≠ '}')
    (hparse : Json.parseL ('{' :: (mid ++ ['}'])) = some j)
    (hshape : ConversationImageAnalyzer.isAnalysisShape j = true) :
    ConversationImageAnalyzer.extractAnalysis s selectedCategory = j := by
  unfold ConversationImageAnalyzer.extractAnalysis
  rw [hs, jsonMatchL_embedded pre mid post hpre hpost]
  change (match Json.parseL ('{' :: (mid ++ ['}'])) with
    | some result => result
    | none => ConversationImageAnalyzer.fallbackResult s selectedCategory) = j
  rw [hparse]

/-- A concrete well-formed AnalysisResult object, used to exercise the
extraction round trip. -/
def c3obj : Json :=
  Json.obj
    [("sentiment", Json.str "positive"),
     ("keyPoints", Json.arr [Json.str "price firm"]),
     ("suggestedResponse", Json.str "offer less"),
     ("negotiationTips", Json.arr [Json.str "be polite"]),
     ("priceAnalysis", Json.obj [("priceFlexibility", Json.str "low")]),
     ("urgencyLevel", Json.str "high"),
     ("sellerMotivation", Json.str "quick sale")]

/-- The serialized text of `c3obj`. -/
def c3objText : String :=
  "\x7b\"sentiment\":\"positive\",\"keyPoints\":[\"price firm\"],\"suggestedResponse\":\"offer less\",\"negotiationTips\":[\"be polite\"],\"priceAnalysis\":\x7b\"priceFlexibility\":\"low\"\x7d,\"urgencyLevel\":\"high\",\"sellerMotivation\":\"quick sale\"\x7d"

/-- The characters of `c3objText` strictly between its outer braces. -/
def c3mid : List Char :=
  "\"sentiment\":\"positive\",\"keyPoints\":[\"price firm\"],\"suggestedResponse\":\"offer less\",\"negotiationTips\":[\"be polite\"],\"priceAnalysis\":\x7b\"priceFlexibility\":\"low\"\x7d,\"urgencyLevel\":\"high\",\"sellerMotivation\":\"quick sale\"".data

/-- A reply embedding `c3obj` in brace-free prose. -/
def c3text : String := "Here is the analysis: " ++ c3objText ++ " Good luck!"

/-- A reply embedding `c3obj` in prose that itself contains a braced
aside before the object. -/
def c3badText : String := "Analysis \x7bpending\x7d now: " ++ c3objText ++ " done"

set_option maxRecDepth 100000 in
/-- Witness for C3 (amended) at a concrete reply embedding a full
AnalysisResult object in brace-free prose. -/
theorem embedded_json_roundtrip_witness :
    ConversationImageAnalyzer.extractAnalysis c3text "car" = c3obj :=
  embedded_json_roundtrip c3text "Here is the analysis: ".data c3mid " Good luck!".data
    "car" c3obj rfl (by decide) (by decide) rfl (by decide)

set_option maxRecDepth 100000 in
/-- Counterexample to C3 as stated: a reply that embeds a well-formed
AnalysisResult object but whose surrounding prose contains one extra
braced aside makes the greedy first-to-last-brace span unparseable, so
extraction returns the fallback, not the embedded object. -/
theorem embedded_json_roundtrip_claim_false :
    Json.parse c3objText = some c3obj ∧
    ConversationImageAnalyzer.isAnalysisShape c3obj = true ∧
    c3badText = "Analysis \x7bpending\x7d now: " ++ c3objText ++ " done" ∧
    ConversationImageAnalyzer.extractAnalysis c3badText "car" =
      ConversationImageAnalyzer.fallbackResult c3badText "car" ∧
    jsGetStr (ConversationImageAnalyzer.extractAnalysis c3badText "car") "sentiment" =
      some "neutral" ∧
    jsGetStr c3obj "sentiment" = some "positive" ∧
    ConversationImageAnalyzer.extractAnalysis c3badText "car" ≠ c3obj :=
  ⟨rfl, by decide, rfl, rfl, rfl, rfl,
   fun h => absurd (congrArg (fun x => jsGetStr x "sentiment") h) (by decide)⟩
